import Mathlib

/-!
Verification of the continuous-detection and alert-escalation core of the
driver-drowsiness-detection repository.

The development shallowly embeds:
- the consecutive-streak tracker and alert escalator of
  src/src/frontend/ionic-app/src/pages/Tab1.tsx
  (updateConsecutiveAlerts, stopDrowsyAlert, stopUnknownTimeout,
  playAlertSound and the 10-second unknown watchdog callback);
- the continuous-capture controller of the camera service
  (startContinuousCapture, stopContinuousCapture, takePhoto,
  captureDetectionFrame, captureAndAnalyze and the repeating-tick callback);
- the detection client of the api service (detectDrowsiness and
  getMockDetectionResult, the synthetic fallback generator).

Mutable refs become explicit state records, timers become booleans or
counters, emitted events become explicit event lists, and the sources of
nondeterminism of the original code (Math.random draws, Date.now, the
transport outcome, the camera hardware outcome) become parameters.
-/

namespace DrowsinessDetection

/-- Closed classification set of the system (api.model DrowsinessStatus):
safe, drowsy, distracted, safety-violation, unknown. -/
inductive DrowsinessStatus where
  | safe
  | drowsy
  | distracted
  | safetyViolation
  | unknown
deriving DecidableEq, BEq, Repr

/-- Per-session streak counters of Tab1 (the consecutiveAlerts state):
one counter per non-safe category plus the last observed status. -/
structure ConsecutiveAlerts where
  drowsy : Nat
  distracted : Nat
  safetyViolation : Nat
  unknown : Nat
  lastStatus : Option DrowsinessStatus
deriving DecidableEq, Repr

/-- Initial consecutiveAlerts state of Tab1: all counters 0, lastStatus null. -/
def initialConsecutiveAlerts : ConsecutiveAlerts :=
  { drowsy := 0, distracted := 0, safetyViolation := 0, unknown := 0, lastStatus := none }

/-- The two timer refs of Tab1: drowsyAlertIntervalRef (the continuous alert
loop, used for both the drowsy and the unknown pattern) and unknownTimeoutRef
(the 10-second auto-stop watchdog). A field is true when the ref holds a live
timer. -/
structure AlertRefs where
  drowsyAlertInterval : Bool
  unknownTimeout : Bool
deriving DecidableEq, Repr

/-- Observable effects of the tracker code: sounds started or played, timers
cleared or armed, alert popups shown. -/
inductive AlertEvent where
  | continuousAlertStarted (kind : DrowsinessStatus)
  | singleWarningPlayed
  | drowsyAlertStopped
  | unknownTimeoutCleared
  | watchdogArmed
  | alertShown
  | terminalNotification
deriving DecidableEq, BEq, Repr

/-- Tab1 stopDrowsyAlert: clear the continuous alert interval if present. -/
def stopDrowsyAlert (r : AlertRefs) : AlertRefs × List AlertEvent :=
  if r.drowsyAlertInterval then
    ({ r with drowsyAlertInterval := false }, [AlertEvent.drowsyAlertStopped])
  else
    (r, [])

/-- Tab1 stopUnknownTimeout: clear the unknown auto-stop watchdog if present. -/
def stopUnknownTimeout (r : AlertRefs) : AlertRefs × List AlertEvent :=
  if r.unknownTimeout then
    ({ r with unknownTimeout := false }, [AlertEvent.unknownTimeoutCleared])
  else
    (r, [])

/-- The three sound kinds accepted by Tab1 playAlertSound. -/
inductive AlertSoundType where
  | drowsy
  | warning
  | unknown
deriving DecidableEq, Repr

/-- Tab1 playAlertSound: first stops the unknown timeout and any running
continuous alert, then either starts a repeating 2-second beep loop (drowsy
and unknown kinds, stored in drowsyAlertIntervalRef) or plays one softer
warning tone (warning kind). -/
def playAlertSound (t : AlertSoundType) (r : AlertRefs) : AlertRefs × List AlertEvent :=
  let s1 := stopUnknownTimeout r
  let s2 := stopDrowsyAlert s1.1
  match t with
  | AlertSoundType.drowsy =>
      ({ s2.1 with drowsyAlertInterval := true },
        s1.2 ++ s2.2 ++ [AlertEvent.continuousAlertStarted DrowsinessStatus.drowsy])
  | AlertSoundType.unknown =>
      ({ s2.1 with drowsyAlertInterval := true },
        s1.2 ++ s2.2 ++ [AlertEvent.continuousAlertStarted DrowsinessStatus.unknown])
  | AlertSoundType.warning =>
      (s2.1, s1.2 ++ s2.2 ++ [AlertEvent.singleWarningPlayed])

/-- Combined tracker state: the consecutiveAlerts counters plus the two
timer refs of Tab1. -/
structure TrackerState where
  counters : ConsecutiveAlerts
  refs : AlertRefs
deriving DecidableEq, Repr

/-- Initial tracker state of a fresh session. -/
def initialTrackerState : TrackerState :=
  { counters := initialConsecutiveAlerts,
    refs := { drowsyAlertInterval := false, unknownTimeout := false } }

/-- Tab1 updateConsecutiveAlerts, one incoming classified status.
Mirrors the source branch for branch: a safe result resets every counter and
stops both timers; a repeat of the previous status increments the matching
counter and, exactly at the threshold (3 for drowsy, distracted and
safety-violation, 5 for unknown), plays the alert, shows the popup, resets
the matching counter together with the unknown counter, and for unknown arms
the 10-second watchdog; a status change reinitializes the counters to the
indicator of the new status and cancels the watchdog when leaving unknown.
lastStatus is always set to the incoming status at the end. -/
def updateConsecutiveAlerts (st : TrackerState) (status : DrowsinessStatus) :
    TrackerState × List AlertEvent :=
  let prev := st.counters
  if status = DrowsinessStatus.safe then
    let s1 := stopDrowsyAlert st.refs
    let s2 := stopUnknownTimeout s1.1
    ({ counters := { drowsy := 0, distracted := 0, safetyViolation := 0, unknown := 0,
                     lastStatus := some DrowsinessStatus.safe },
       refs := s2.1 }, s1.2 ++ s2.2)
  else if some status = prev.lastStatus then
    match status with
    | DrowsinessStatus.drowsy =>
        let d := prev.drowsy + 1
        if d = 3 then
          let s1 := playAlertSound AlertSoundType.drowsy st.refs
          ({ counters :=
               { prev with
                 drowsy := 0, unknown := 0, lastStatus := some DrowsinessStatus.drowsy },
             refs := s1.1 }, s1.2 ++ [AlertEvent.alertShown])
        else
          ({ counters :=
               { prev with drowsy := d, lastStatus := some DrowsinessStatus.drowsy },
             refs := st.refs }, [])
    | DrowsinessStatus.distracted =>
        let d := prev.distracted + 1
        if d = 3 then
          let s1 := playAlertSound AlertSoundType.warning st.refs
          ({ counters :=
               { prev with
                 distracted := 0, unknown := 0, lastStatus := some DrowsinessStatus.distracted },
             refs := s1.1 }, s1.2 ++ [AlertEvent.alertShown])
        else
          ({ counters :=
               { prev with distracted := d, lastStatus := some DrowsinessStatus.distracted },
             refs := st.refs }, [])
    | DrowsinessStatus.safetyViolation =>
        let d := prev.safetyViolation + 1
        if d = 3 then
          let s1 := playAlertSound AlertSoundType.warning st.refs
          ({ counters :=
               { prev with
                 safetyViolation := 0, unknown := 0,
                 lastStatus := some DrowsinessStatus.safetyViolation },
             refs := s1.1 }, s1.2 ++ [AlertEvent.alertShown])
        else
          ({ counters :=
               { prev with
                 safetyViolation := d, lastStatus := some DrowsinessStatus.safetyViolation },
             refs := st.refs }, [])
    | DrowsinessStatus.unknown =>
        let u := prev.unknown + 1
        if u = 5 then
          let s1 := playAlertSound AlertSoundType.unknown st.refs
          let s2 := stopUnknownTimeout s1.1
          ({ counters :=
               { prev with unknown := 0, lastStatus := some DrowsinessStatus.unknown },
             refs := { s2.1 with unknownTimeout := true } },
            s1.2 ++ [AlertEvent.alertShown] ++ s2.2 ++ [AlertEvent.watchdogArmed])
        else
          ({ counters :=
               { prev with unknown := u, lastStatus := some DrowsinessStatus.unknown },
             refs := st.refs }, [])
    | DrowsinessStatus.safe =>
        ({ counters := { prev with lastStatus := some DrowsinessStatus.safe },
           refs := st.refs }, [])
  else
    let c : ConsecutiveAlerts :=
      { drowsy := if status = DrowsinessStatus.drowsy then 1 else 0,
        distracted := if status = DrowsinessStatus.distracted then 1 else 0,
        safetyViolation := if status = DrowsinessStatus.safetyViolation then 1 else 0,
        unknown := if status = DrowsinessStatus.unknown then 1 else 0,
        lastStatus := some status }
    if status ≠ DrowsinessStatus.unknown ∧ prev.lastStatus = some DrowsinessStatus.unknown then
      let s1 := stopUnknownTimeout st.refs
      ({ counters := c, refs := s1.1 }, s1.2)
    else
      ({ counters := c, refs := st.refs }, [])

/-- Feed a list of classified results to the tracker, collecting the state
after the last one and the concatenated event trace. -/
def runTracker (st : TrackerState) : List DrowsinessStatus → TrackerState × List AlertEvent
  | [] => (st, [])
  | s :: rest =>
      let step := updateConsecutiveAlerts st s
      let tail := runTracker step.1 rest
      (tail.1, step.2 ++ tail.2)

/-- Number of occurrences of one event in a trace. -/
def countEv (e : AlertEvent) : List AlertEvent → Nat
  | [] => 0
  | x :: xs => (if x = e then 1 else 0) + countEv e xs

theorem countEv_append (e : AlertEvent) (l₁ l₂ : List AlertEvent) :
    countEv e (l₁ ++ l₂) = countEv e l₁ + countEv e l₂ := by
  induction l₁ with
  | nil => simp [countEv]
  | cons x xs ih => simp [countEv, ih]; omega

/-- Model selector of the api layer (api.model ModelType). -/
inductive ModelType where
  | yolo
  | fasterRcnn
  | vgg16
deriving DecidableEq, Repr

/-- Outcome tag of a DetectionResult. -/
inductive ApiStatus where
  | success
  | error
deriving DecidableEq, Repr

/-- Bounding box of a detection (x, y, width, height). -/
structure BBox where
  x : Int
  y : Int
  width : Int
  height : Int
deriving DecidableEq, Repr

/-- Request sent to the detect endpoint: base64 image, optional model,
optional session correlation id. -/
structure DetectionRequest where
  image : String
  model : Option ModelType
  sessionId : Option String
deriving DecidableEq, Repr

/-- Result of one inference call (api.model DetectionResult). Confidence is
kept as a rational, faithful to the numeric expressions of the source. -/
structure DetectionResult where
  id : String
  timestamp : String
  isDrowsy : DrowsinessStatus
  confidence : ℚ
  modelUsed : ModelType
  inferenceTime : ℚ
  bbox : Option BBox
  alertTriggered : Bool
  sessionId : Option String
  status : ApiStatus
  className : Option String
deriving DecidableEq, Repr

/-- Environment of one getMockDetectionResult call: the Math.random draws it
consumes (each lies in the interval from 0 inclusive to 1 exclusive) and the
clock values. -/
structure MockEnv where
  statusDraw : ℚ
  confDraw : ℚ
  inferDraw : ℚ
  bboxXDraw : ℚ
  bboxYDraw : ℚ
  bboxWDraw : ℚ
  bboxHDraw : ℚ
  nowMs : Nat
  nowIso : String
deriving DecidableEq, Repr

/-- JavaScript Math.round(q * 100) / 100 for nonnegative q: round to two
decimal places, halves upward. -/
def round2 (q : ℚ) : ℚ := ((Int.floor (q * 100 + 1 / 2) : Int) : ℚ) / 100

/-- The status pool of the synthetic generator of api.service
(part_002 getMockDetectionResult): safe, drowsy, distracted,
safety-violation. The unknown status is never synthesized. -/
def mockStatuses : List DrowsinessStatus :=
  [DrowsinessStatus.safe, DrowsinessStatus.drowsy,
   DrowsinessStatus.distracted, DrowsinessStatus.safetyViolation]

/-- Raw (pre-rounding) confidence of the synthetic generator, per category:
safe 0.7 + r * 0.3, drowsy 0.6 + r * 0.35, distracted 0.5 + r * 0.4,
safety-violation 0.8 + r * 0.2. The unknown arm is unreachable because
mockStatuses never yields unknown. -/
def mockConfidenceRaw : DrowsinessStatus → ℚ → ℚ
  | DrowsinessStatus.safe, r => 7 / 10 + r * (3 / 10)
  | DrowsinessStatus.drowsy, r => 6 / 10 + r * (35 / 100)
  | DrowsinessStatus.distracted, r => 1 / 2 + r * (4 / 10)
  | DrowsinessStatus.safetyViolation, r => 4 / 5 + r * (2 / 10)
  | DrowsinessStatus.unknown, _ => 0

/-- Human-readable class name per synthesized category. -/
def mockClassName : DrowsinessStatus → String
  | DrowsinessStatus.safe => "Alert/Focused"
  | DrowsinessStatus.drowsy => "Drowsy/Sleepy"
  | DrowsinessStatus.distracted => "Distracted/Looking Away"
  | DrowsinessStatus.safetyViolation => "Safety Violation/Phone Use"
  | DrowsinessStatus.unknown => ""

/-- Synthetic fallback generator of api.service (part_002
getMockDetectionResult): picks one of four statuses by a uniform draw, draws
a per-category confidence, rounds it to two decimals, synthesizes a bounding
box for non-safe statuses, and flags alertTriggered for drowsy or
safety-violation with raw confidence above 0.7. -/
def getMockDetectionResult (request : DetectionRequest) (env : MockEnv) : DetectionResult :=
  let randomIndex := (Int.floor (env.statusDraw * 4)).toNat
  let status := mockStatuses.getD randomIndex DrowsinessStatus.safe
  let confidence := mockConfidenceRaw status env.confDraw
  { id := "mock_" ++ toString env.nowMs,
    timestamp := env.nowIso,
    isDrowsy := status,
    confidence := round2 confidence,
    modelUsed := request.model.getD ModelType.yolo,
    inferenceTime := 1 / 2 + env.inferDraw * 2,
    bbox :=
      if status ≠ DrowsinessStatus.safe then
        some { x := 100 + Int.floor (env.bboxXDraw * 50),
               y := 100 + Int.floor (env.bboxYDraw * 50),
               width := 150 + Int.floor (env.bboxWDraw * 100),
               height := 150 + Int.floor (env.bboxHDraw * 100) }
      else none,
    alertTriggered :=
      (status == DrowsinessStatus.drowsy || status == DrowsinessStatus.safetyViolation)
        && decide ((7 : ℚ) / 10 < confidence),
    sessionId := request.sessionId,
    status := ApiStatus.success,
    className := some (mockClassName status) }

/-- Detection client of api.service (detectDrowsiness): posts the request to
the detect endpoint; the transport parameter is the outcome of that call. A
successful response is returned as is; any transport failure (timeout,
network error, non-success HTTP status, modelled as the error case) is
caught and replaced by the synthetic fallback result. -/
def detectDrowsiness (request : DetectionRequest)
    (transport : Except String DetectionResult) (env : MockEnv) :
    Except String DetectionResult :=
  match transport with
  | Except.ok r => Except.ok r
  | Except.error _ => Except.ok (getMockDetectionResult request env)

/-- Permission state of the camera service. -/
inductive PermissionStatus where
  | unknown
  | granted
  | denied
  | prompt
deriving DecidableEq, Repr

/-- Camera status snapshot of camera.service (CameraStatus). -/
structure CameraStatusRec where
  isInitialized : Bool
  isCapturing : Bool
  hasPermission : Bool
  lastCaptureTime : Option Nat
  captureCount : Nat
  errorMessage : Option String
  platform : String
  permissionStatus : PermissionStatus
deriving DecidableEq, Repr

/-- Camera capture settings of camera.service (quality, width, height of the
encoded frame; the other fields of CameraSettings are platform enum values
with no arithmetic content). -/
structure CameraSettings where
  quality : Nat
  width : Nat
  height : Nat
deriving DecidableEq, Repr

/-- One captured sample (camera.service DetectionFrame). -/
structure DetectionFrame where
  id : String
  timestamp : Nat
  imageData : String
  width : Nat
  height : Nat
  fileSize : Nat
deriving DecidableEq, Repr

/-- Events emitted by the camera service. statusChanged carries the snapshot
broadcast to observers. -/
inductive CamEvent where
  | statusChanged (s : CameraStatusRec)
  | detectionResult (frame : DetectionFrame) (result : DetectionResult) (alertLevel : Nat)
  | analysisError
  | captureError
  | generalError
deriving DecidableEq, Repr

/-- State of the camera service: the status record, the repeating-capture
timer ref (captureInterval holds the live timer id), the number of interval
timers alive in the host environment, a fresh-id counter for setInterval, and
the current settings. -/
structure CameraService where
  cameraStatus : CameraStatusRec
  captureInterval : Option Nat
  activeTimers : Nat
  nextTimerId : Nat
  currentSettings : CameraSettings
deriving DecidableEq, Repr

/-- camera.service updateStatus: merge the updates into the status record and
broadcast the new snapshot. -/
def updateStatusM (c : CameraService) (f : CameraStatusRec → CameraStatusRec) :
    CameraService × List CamEvent :=
  let c1 := { c with cameraStatus := f c.cameraStatus }
  (c1, [CamEvent.statusChanged c1.cameraStatus])

/-- Host setInterval: allocate a fresh repeating timer and return its id. -/
def setIntervalM (c : CameraService) : CameraService × Nat :=
  ({ c with activeTimers := c.activeTimers + 1, nextTimerId := c.nextTimerId + 1 },
   c.nextTimerId)

/-- Host clearInterval on a live timer: one fewer active timer. -/
def clearIntervalM (c : CameraService) : CameraService :=
  { c with activeTimers := c.activeTimers - 1 }

/-- camera.service requestCameraPermissions. The web and mobile platform
branches both reduce to one environment outcome, permOk: on grant the status
records permission granted with the error message cleared, on denial it
records the denied state and an error message, and the error is rethrown to
the caller (the Except value). -/
def requestCameraPermissions (c : CameraService) (permOk : Bool) :
    CameraService × List CamEvent × Except String Unit :=
  if permOk then
    let s := updateStatusM c (fun st =>
      { st with hasPermission := true, permissionStatus := PermissionStatus.granted,
                errorMessage := none })
    (s.1, s.2, Except.ok ())
  else
    let s := updateStatusM c (fun st =>
      { st with hasPermission := false, permissionStatus := PermissionStatus.denied,
                errorMessage := some "Camera permission denied" })
    (s.1, s.2, Except.error "Camera permission denied")

/-- Environment of one capture attempt: the permission outcome if a request
is needed, whether the platform photo acquisition succeeds, the base64
payload of the photo when present, the clock, fresh ids, and the transport
outcome and random draws of the detection call of this tick. -/
structure CaptureEnv where
  permOk : Bool
  captureOk : Bool
  photoData : Option String
  now : Nat
  frameId : String
  sessionIdStr : String
  transport : Except String DetectionResult
  mock : MockEnv
deriving Repr

/-- camera.service takePhoto: auto-request permission when absent (a
permission failure propagates), then acquire one photo; on success the
status records the capture time and increments the capture counter, on
failure the status records the error message and the error propagates. -/
def takePhoto (c : CameraService) (env : CaptureEnv) :
    CameraService × List CamEvent × Except String Unit :=
  let p := if c.cameraStatus.hasPermission
    then (c, ([] : List CamEvent), Except.ok ())
    else requestCameraPermissions c env.permOk
  match p.2.2 with
  | Except.error e => (p.1, p.2.1, Except.error e)
  | Except.ok _ =>
    if env.captureOk then
      let s := updateStatusM p.1 (fun st =>
        { st with lastCaptureTime := some env.now, captureCount := st.captureCount + 1,
                  errorMessage := none })
      (s.1, p.2.1 ++ s.2, Except.ok ())
    else
      let s := updateStatusM p.1 (fun st =>
        { st with errorMessage := some "Failed to capture photo" })
      (s.1, p.2.1 ++ s.2, Except.error "Failed to take photo")

/-- camera.service captureDetectionFrame: take a photo, require its base64
payload (throwing when absent), and build the DetectionFrame; fileSize is
the integer ceiling of three quarters of the base64 length. -/
def captureDetectionFrame (c : CameraService) (env : CaptureEnv) :
    CameraService × List CamEvent × Except String DetectionFrame :=
  let t := takePhoto c env
  match t.2.2 with
  | Except.error e => (t.1, t.2.1, Except.error e)
  | Except.ok _ =>
    match env.photoData with
    | none => (t.1, t.2.1, Except.error "No image data received")
    | some data =>
      (t.1, t.2.1, Except.ok
        { id := env.frameId,
          timestamp := env.now,
          imageData := data,
          width := c.currentSettings.width,
          height := c.currentSettings.height,
          fileSize := (3 * data.length + 3) / 4 })

/-- camera.service getAlertLevel: level 0 for a non-success result, else 3,
2, 1 or 0 by confidence thresholds 0.8, 0.6, 0.4. (The isDrowsy falsiness
test of the source is always false for the closed status-string set, so it
imposes no further condition.) -/
def getAlertLevel (result : DetectionResult) : Nat :=
  if result.status ≠ ApiStatus.success then 0
  else if (8 : ℚ) / 10 ≤ result.confidence then 3
  else if (6 : ℚ) / 10 ≤ result.confidence then 2
  else if (4 : ℚ) / 10 ≤ result.confidence then 1
  else 0

/-- camera.service captureAndAnalyze: inside one try block, capture a frame,
send it to detectDrowsiness (which never rejects, falling back to a
synthetic result on transport failure), and emit the detection result; any
error raised inside the block is caught and reported as an analysisError
event. The Except component records whether an exception escapes the call;
the catch-all makes it always ok. -/
def captureAndAnalyze (c : CameraService) (env : CaptureEnv) :
    CameraService × List CamEvent × Except String Unit :=
  let f := captureDetectionFrame c env
  match f.2.2 with
  | Except.error _ => (f.1, f.2.1 ++ [CamEvent.analysisError], Except.ok ())
  | Except.ok frame =>
    match detectDrowsiness
        { image := frame.imageData, model := some ModelType.yolo,
          sessionId := some env.sessionIdStr } env.transport env.mock with
    | Except.ok result =>
        (f.1, f.2.1 ++ [CamEvent.detectionResult frame result (getAlertLevel result)],
         Except.ok ())
    | Except.error _ => (f.1, f.2.1 ++ [CamEvent.analysisError], Except.ok ())

/-- The repeating callback scheduled by startContinuousCapture: await
captureAndAnalyze inside a try block whose catch emits a captureError event.
The callback never touches the timer, so an error can only add an event. -/
def continuousCaptureTick (c : CameraService) (env : CaptureEnv) :
    CameraService × List CamEvent :=
  let r := captureAndAnalyze c env
  match r.2.2 with
  | Except.ok _ => (r.1, r.2.1)
  | Except.error _ => (r.1, r.2.1 ++ [CamEvent.captureError])

/-- camera.service startContinuousCapture: a no-op when already capturing
(idempotent guard); otherwise request permission when absent (a denial
propagates), mark the status capturing, broadcast it once more, and schedule
the repeating capture timer, storing its id in captureInterval. -/
def startContinuousCapture (c : CameraService) (permOk : Bool) :
    CameraService × List CamEvent × Except String Unit :=
  if c.cameraStatus.isCapturing then
    (c, [], Except.ok ())
  else
    let p := if c.cameraStatus.hasPermission
      then (c, ([] : List CamEvent), Except.ok ())
      else requestCameraPermissions c permOk
    match p.2.2 with
    | Except.error e => (p.1, p.2.1, Except.error e)
    | Except.ok _ =>
      let s := updateStatusM p.1 (fun st => { st with isCapturing := true })
      let e3 := [CamEvent.statusChanged s.1.cameraStatus]
      let t := setIntervalM s.1
      ({ t.1 with captureInterval := some t.2 }, p.2.1 ++ s.2 ++ e3, Except.ok ())

/-- camera.service stopContinuousCapture: clear the repeating timer when
present, mark the status not capturing, and broadcast the snapshot once
more. Total (never throws). -/
def stopContinuousCapture (c : CameraService) : CameraService × List CamEvent :=
  let c1 := match c.captureInterval with
    | some _ => { clearIntervalM c with captureInterval := none }
    | none => c
  let s := updateStatusM c1 (fun st => { st with isCapturing := false })
  (s.1, s.2 ++ [CamEvent.statusChanged s.1.cameraStatus])

/-- Iterated startContinuousCapture: n successive calls, keeping the state. -/
def startN (permOk : Bool) : Nat → CameraService → CameraService
  | 0, c => c
  | n + 1, c => startN permOk n (startContinuousCapture c permOk).1

/-- Combined monitoring system for the unknown auto-stop scenario: the Tab1
tracker together with the camera service it controls. -/
structure MonitoringSystem where
  tracker : TrackerState
  camera : CameraService
deriving DecidableEq, Repr

/-- The 10-second unknown watchdog callback of Tab1 (armed at the 5th
consecutive unknown): raise the terminal notification, stop continuous
capture through the camera service, stop the continuous alert loop and clear
the watchdog ref. -/
def fireUnknownWatchdog (sys : MonitoringSystem) :
    MonitoringSystem × List AlertEvent × List CamEvent :=
  let cam := stopContinuousCapture sys.camera
  let s1 := stopDrowsyAlert sys.tracker.refs
  let s2 := stopUnknownTimeout s1.1
  ({ tracker := { sys.tracker with refs := s2.1 }, camera := cam.1 },
   [AlertEvent.terminalNotification] ++ s1.2 ++ s2.2, cam.2)

/-- C1: feeding three consecutive drowsy results to the tracker (the run
starting while lastStatus is not drowsy, so the first result initializes the
counter to 1) starts the continuous drowsy alert exactly once, namely at the
third result and not earlier, and immediately afterwards both the drowsy and
the unknown counters are 0. -/
theorem drowsy_streak_alert_once (st : TrackerState)
    (h : st.counters.lastStatus ≠ some DrowsinessStatus.drowsy) :
    countEv (AlertEvent.continuousAlertStarted DrowsinessStatus.drowsy)
      (runTracker st [DrowsinessStatus.drowsy, DrowsinessStatus.drowsy,
        DrowsinessStatus.drowsy]).2 = 1 ∧
    countEv (AlertEvent.continuousAlertStarted DrowsinessStatus.drowsy)
      (runTracker st [DrowsinessStatus.drowsy, DrowsinessStatus.drowsy]).2 = 0 ∧
    (runTracker st [DrowsinessStatus.drowsy, DrowsinessStatus.drowsy,
      DrowsinessStatus.drowsy]).1.counters.drowsy = 0 ∧
    (runTracker st [DrowsinessStatus.drowsy, DrowsinessStatus.drowsy,
      DrowsinessStatus.drowsy]).1.counters.unknown = 0 := by
  obtain ⟨⟨d, di, sv, u, ls⟩, b1, b2⟩ := st
  cases b1 <;> cases b2 <;> rcases ls with _ | s <;> try cases s
  all_goals
    simp_all [runTracker, updateConsecutiveAlerts, playAlertSound, stopDrowsyAlert,
      stopUnknownTimeout, countEv]

/-- Witness for drowsy_streak_alert_once at the initial tracker state. -/
theorem drowsy_streak_alert_once_witness :
    countEv (AlertEvent.continuousAlertStarted DrowsinessStatus.drowsy)
      (runTracker initialTrackerState [DrowsinessStatus.drowsy, DrowsinessStatus.drowsy,
        DrowsinessStatus.drowsy]).2 = 1 ∧
    countEv (AlertEvent.continuousAlertStarted DrowsinessStatus.drowsy)
      (runTracker initialTrackerState [DrowsinessStatus.drowsy,
        DrowsinessStatus.drowsy]).2 = 0 ∧
    (runTracker initialTrackerState [DrowsinessStatus.drowsy, DrowsinessStatus.drowsy,
      DrowsinessStatus.drowsy]).1.counters.drowsy = 0 ∧
    (runTracker initialTrackerState [DrowsinessStatus.drowsy, DrowsinessStatus.drowsy,
      DrowsinessStatus.drowsy]).1.counters.unknown = 0 :=
  drowsy_streak_alert_once initialTrackerState (by decide)

/-- C2: a safe result resets all four category counters to 0 from any prior
tracker state, stops any running continuous alert loop and cancels any
pending unknown auto-stop watchdog. -/
theorem safe_resets_everything (st : TrackerState) :
    (updateConsecutiveAlerts st DrowsinessStatus.safe).1.counters.drowsy = 0 ∧
    (updateConsecutiveAlerts st DrowsinessStatus.safe).1.counters.distracted = 0 ∧
    (updateConsecutiveAlerts st DrowsinessStatus.safe).1.counters.safetyViolation = 0 ∧
    (updateConsecutiveAlerts st DrowsinessStatus.safe).1.counters.unknown = 0 ∧
    (updateConsecutiveAlerts st DrowsinessStatus.safe).1.refs.drowsyAlertInterval = false ∧
    (updateConsecutiveAlerts st DrowsinessStatus.safe).1.refs.unknownTimeout = false := by
  obtain ⟨⟨d, di, sv, u, ls⟩, b1, b2⟩ := st
  cases b1 <;> cases b2 <;>
    simp [updateConsecutiveAlerts, stopDrowsyAlert, stopUnknownTimeout]

/-- C3: five consecutive unknown results (the run starting while lastStatus
is not unknown) escalate exactly at the fifth: the first four produce neither
a continuous unknown alert nor a watchdog, the fifth starts the continuous
unknown alert, arms the 10-second watchdog and resets the unknown counter to
0; and when the armed watchdog fires, the camera service stops continuous
capture (not capturing, timer cleared) and the terminal notification is
raised. -/
theorem unknown_escalation_and_watchdog (st : TrackerState)
    (h : st.counters.lastStatus ≠ some DrowsinessStatus.unknown)
    (sys : MonitoringSystem) (harm : sys.tracker.refs.unknownTimeout = true) :
    countEv (AlertEvent.continuousAlertStarted DrowsinessStatus.unknown)
      (runTracker st [DrowsinessStatus.unknown, DrowsinessStatus.unknown,
        DrowsinessStatus.unknown, DrowsinessStatus.unknown]).2 = 0 ∧
    countEv AlertEvent.watchdogArmed
      (runTracker st [DrowsinessStatus.unknown, DrowsinessStatus.unknown,
        DrowsinessStatus.unknown, DrowsinessStatus.unknown]).2 = 0 ∧
    countEv (AlertEvent.continuousAlertStarted DrowsinessStatus.unknown)
      (runTracker st [DrowsinessStatus.unknown, DrowsinessStatus.unknown,
        DrowsinessStatus.unknown, DrowsinessStatus.unknown,
        DrowsinessStatus.unknown]).2 = 1 ∧
    countEv AlertEvent.watchdogArmed
      (runTracker st [DrowsinessStatus.unknown, DrowsinessStatus.unknown,
        DrowsinessStatus.unknown, DrowsinessStatus.unknown,
        DrowsinessStatus.unknown]).2 = 1 ∧
    (runTracker st [DrowsinessStatus.unknown, DrowsinessStatus.unknown,
      DrowsinessStatus.unknown, DrowsinessStatus.unknown,
      DrowsinessStatus.unknown]).1.counters.unknown = 0 ∧
    (runTracker st [DrowsinessStatus.unknown, DrowsinessStatus.unknown,
      DrowsinessStatus.unknown, DrowsinessStatus.unknown,
      DrowsinessStatus.unknown]).1.refs.unknownTimeout = true ∧
    (fireUnknownWatchdog sys).1.camera.cameraStatus.isCapturing = false ∧
    (fireUnknownWatchdog sys).1.camera.captureInterval = none ∧
    (fireUnknownWatchdog sys).1.tracker.refs.unknownTimeout = false ∧
    AlertEvent.terminalNotification ∈ (fireUnknownWatchdog sys).2.1 := by
  obtain ⟨⟨d, di, sv, u, ls⟩, b1, b2⟩ := st
  obtain ⟨⟨cnt, ⟨rb1, rb2⟩⟩, cam⟩ := sys
  have h2 : ¬ (some DrowsinessStatus.unknown = ls) := fun hh => h hh.symm
  have hfire :
      (fireUnknownWatchdog ⟨⟨cnt, ⟨rb1, rb2⟩⟩, cam⟩).1.camera.cameraStatus.isCapturing
          = false ∧
      (fireUnknownWatchdog ⟨⟨cnt, ⟨rb1, rb2⟩⟩, cam⟩).1.camera.captureInterval = none ∧
      (fireUnknownWatchdog ⟨⟨cnt, ⟨rb1, rb2⟩⟩, cam⟩).1.tracker.refs.unknownTimeout
          = false ∧
      AlertEvent.terminalNotification ∈ (fireUnknownWatchdog ⟨⟨cnt, ⟨rb1, rb2⟩⟩, cam⟩).2.1 := by
    rcases hci : cam.captureInterval with _ | tid <;> cases rb1 <;>
      simp_all [fireUnknownWatchdog, stopContinuousCapture, clearIntervalM,
        updateStatusM, stopDrowsyAlert, stopUnknownTimeout]
  have htr :
      countEv (AlertEvent.continuousAlertStarted DrowsinessStatus.unknown)
        (runTracker ⟨⟨d, di, sv, u, ls⟩, b1, b2⟩ [DrowsinessStatus.unknown,
          DrowsinessStatus.unknown, DrowsinessStatus.unknown,
          DrowsinessStatus.unknown]).2 = 0 ∧
      countEv AlertEvent.watchdogArmed
        (runTracker ⟨⟨d, di, sv, u, ls⟩, b1, b2⟩ [DrowsinessStatus.unknown,
          DrowsinessStatus.unknown, DrowsinessStatus.unknown,
          DrowsinessStatus.unknown]).2 = 0 ∧
      countEv (AlertEvent.continuousAlertStarted DrowsinessStatus.unknown)
        (runTracker ⟨⟨d, di, sv, u, ls⟩, b1, b2⟩ [DrowsinessStatus.unknown,
          DrowsinessStatus.unknown, DrowsinessStatus.unknown, DrowsinessStatus.unknown,
          DrowsinessStatus.unknown]).2 = 1 ∧
      countEv AlertEvent.watchdogArmed
        (runTracker ⟨⟨d, di, sv, u, ls⟩, b1, b2⟩ [DrowsinessStatus.unknown,
          DrowsinessStatus.unknown, DrowsinessStatus.unknown, DrowsinessStatus.unknown,
          DrowsinessStatus.unknown]).2 = 1 ∧
      (runTracker ⟨⟨d, di, sv, u, ls⟩, b1, b2⟩ [DrowsinessStatus.unknown,
        DrowsinessStatus.unknown, DrowsinessStatus.unknown, DrowsinessStatus.unknown,
        DrowsinessStatus.unknown]).1.counters.unknown = 0 ∧
      (runTracker ⟨⟨d, di, sv, u, ls⟩, b1, b2⟩ [DrowsinessStatus.unknown,
        DrowsinessStatus.unknown, DrowsinessStatus.unknown, DrowsinessStatus.unknown,
        DrowsinessStatus.unknown]).1.refs.unknownTimeout = true := by
    cases b1 <;> cases b2 <;>
      simp_all [runTracker, updateConsecutiveAlerts, playAlertSound, stopDrowsyAlert,
        stopUnknownTimeout, countEv]
  exact ⟨htr.1, htr.2.1, htr.2.2.1, htr.2.2.2.1, htr.2.2.2.2.1, htr.2.2.2.2.2,
    hfire.1, hfire.2.1, hfire.2.2.1, hfire.2.2.2⟩

/-- Witness for unknown_escalation_and_watchdog: initial tracker state and a
capturing monitoring system with an armed watchdog. -/
theorem unknown_escalation_and_watchdog_witness :
    initialTrackerState.counters.lastStatus ≠ some DrowsinessStatus.unknown ∧
    (fireUnknownWatchdog
      { tracker := { counters := initialConsecutiveAlerts,
                     refs := { drowsyAlertInterval := true, unknownTimeout := true } },
        camera :=
          { cameraStatus :=
              { isInitialized := true, isCapturing := true, hasPermission := true,
                lastCaptureTime := none, captureCount := 7, errorMessage := none,
                platform := "web", permissionStatus := PermissionStatus.granted },
            captureInterval := some 0, activeTimers := 1, nextTimerId := 1,
            currentSettings := { quality := 80, width := 640, height := 480 } } }).1.camera.cameraStatus.isCapturing = false :=
  ⟨by decide,
    (unknown_escalation_and_watchdog initialTrackerState (by decide)
      { tracker := { counters := initialConsecutiveAlerts,
                     refs := { drowsyAlertInterval := true, unknownTimeout := true } },
        camera :=
          { cameraStatus :=
              { isInitialized := true, isCapturing := true, hasPermission := true,
                lastCaptureTime := none, captureCount := 7, errorMessage := none,
                platform := "web", permissionStatus := PermissionStatus.granted },
            captureInterval := some 0, activeTimers := 1, nextTimerId := 1,
            currentSettings := { quality := 80, width := 640, height := 480 } } }
      (by decide)).2.2.2.2.2.2.1⟩

/-- C4 counterexample: with lastStatus drowsy and the drowsy counter at 2, a
further drowsy result does not leave the counter at the incremented value 3;
the code resets it to 0 after triggering the threshold alert. -/
theorem repeat_increment_counterexample :
    (updateConsecutiveAlerts
      { counters := { drowsy := 2, distracted := 0, safetyViolation := 0, unknown := 0,
                      lastStatus := some DrowsinessStatus.drowsy },
        refs := { drowsyAlertInterval := false, unknownTimeout := false } }
      DrowsinessStatus.drowsy).1.counters.drowsy = 0 ∧
    (updateConsecutiveAlerts
      { counters := { drowsy := 2, distracted := 0, safetyViolation := 0, unknown := 0,
                      lastStatus := some DrowsinessStatus.drowsy },
        refs := { drowsyAlertInterval := false, unknownTimeout := false } }
      DrowsinessStatus.drowsy).1.counters.drowsy ≠ 2 + 1 := by
  decide

set_option maxHeartbeats 2000000 in
/-- C4 amended: on a status different from lastStatus all other counters
reset to 0 and the matching counter is initialized to 1 (all counters reset
to 0 when the new status is safe); on a repeated status only the matching
counter is incremented, except when the increment reaches the category
threshold (3, or 5 for unknown), in which case the matching counter and the
unknown counter are reset to 0 after the alert fires; and whenever the
previous status was unknown and the new one is not, the pending auto-stop
watchdog is cancelled. -/
theorem transition_characterization (st : TrackerState) (status : DrowsinessStatus) :
    (some status ≠ st.counters.lastStatus → status ≠ DrowsinessStatus.safe →
      (updateConsecutiveAlerts st status).1.counters =
        { drowsy := if status = DrowsinessStatus.drowsy then 1 else 0,
          distracted := if status = DrowsinessStatus.distracted then 1 else 0,
          safetyViolation := if status = DrowsinessStatus.safetyViolation then 1 else 0,
          unknown := if status = DrowsinessStatus.unknown then 1 else 0,
          lastStatus := some status }) ∧
    (status = DrowsinessStatus.safe →
      (updateConsecutiveAlerts st status).1.counters =
        { drowsy := 0, distracted := 0, safetyViolation := 0, unknown := 0,
          lastStatus := some DrowsinessStatus.safe }) ∧
    (some status = st.counters.lastStatus →
      (status = DrowsinessStatus.drowsy → st.counters.drowsy + 1 ≠ 3 →
        (updateConsecutiveAlerts st status).1.counters =
          { st.counters with drowsy := st.counters.drowsy + 1 }) ∧
      (status = DrowsinessStatus.distracted → st.counters.distracted + 1 ≠ 3 →
        (updateConsecutiveAlerts st status).1.counters =
          { st.counters with distracted := st.counters.distracted + 1 }) ∧
      (status = DrowsinessStatus.safetyViolation → st.counters.safetyViolation + 1 ≠ 3 →
        (updateConsecutiveAlerts st status).1.counters =
          { st.counters with safetyViolation := st.counters.safetyViolation + 1 }) ∧
      (status = DrowsinessStatus.unknown → st.counters.unknown + 1 ≠ 5 →
        (updateConsecutiveAlerts st status).1.counters =
          { st.counters with unknown := st.counters.unknown + 1 })) ∧
    (some status = st.counters.lastStatus →
      (status = DrowsinessStatus.drowsy → st.counters.drowsy + 1 = 3 →
        (updateConsecutiveAlerts st status).1.counters =
          { st.counters with drowsy := 0, unknown := 0 }) ∧
      (status = DrowsinessStatus.distracted → st.counters.distracted + 1 = 3 →
        (updateConsecutiveAlerts st status).1.counters =
          { st.counters with distracted := 0, unknown := 0 }) ∧
      (status = DrowsinessStatus.safetyViolation → st.counters.safetyViolation + 1 = 3 →
        (updateConsecutiveAlerts st status).1.counters =
          { st.counters with safetyViolation := 0, unknown := 0 }) ∧
      (status = DrowsinessStatus.unknown → st.counters.unknown + 1 = 5 →
        (updateConsecutiveAlerts st status).1.counters =
          { st.counters with unknown := 0 })) ∧
    (st.counters.lastStatus = some DrowsinessStatus.unknown →
      status ≠ DrowsinessStatus.unknown →
      (updateConsecutiveAlerts st status).1.refs.unknownTimeout = false) := by
  obtain ⟨⟨d, di, sv, u, ls⟩, b1, b2⟩ := st
  cases status <;> rcases ls with _ | s <;> try cases s
  all_goals cases b1 <;> cases b2
  all_goals
    simp_all [updateConsecutiveAlerts, playAlertSound, stopDrowsyAlert,
      stopUnknownTimeout]

/-- Witness for transition_characterization: on a repeated drowsy below the
threshold the state really is the plain increment. -/
theorem transition_characterization_witness :
    (some DrowsinessStatus.drowsy =
      (⟨⟨1, 0, 0, 0, some DrowsinessStatus.drowsy⟩, ⟨false, false⟩⟩ :
        TrackerState).counters.lastStatus) ∧
    (updateConsecutiveAlerts
      (⟨⟨1, 0, 0, 0, some DrowsinessStatus.drowsy⟩, ⟨false, false⟩⟩ : TrackerState)
      DrowsinessStatus.drowsy).1.counters =
      { drowsy := 2, distracted := 0, safetyViolation := 0, unknown := 0,
        lastStatus := some DrowsinessStatus.drowsy } :=
  ⟨rfl,
    ((transition_characterization
      (⟨⟨1, 0, 0, 0, some DrowsinessStatus.drowsy⟩, ⟨false, false⟩⟩ : TrackerState)
      DrowsinessStatus.drowsy).2.2.1 rfl).1 rfl (by decide)⟩

/-- Streak invariant: at most one of the four category counters is nonzero,
and a nonzero counter's category is exactly the last observed status. -/
def streakInv (c : ConsecutiveAlerts) : Prop :=
  ((if c.drowsy = 0 then 0 else 1) + (if c.distracted = 0 then 0 else 1) +
    (if c.safetyViolation = 0 then 0 else 1) + (if c.unknown = 0 then 0 else 1) ≤ 1) ∧
  (c.drowsy ≠ 0 → c.lastStatus = some DrowsinessStatus.drowsy) ∧
  (c.distracted ≠ 0 → c.lastStatus = some DrowsinessStatus.distracted) ∧
  (c.safetyViolation ≠ 0 → c.lastStatus = some DrowsinessStatus.safetyViolation) ∧
  (c.unknown ≠ 0 → c.lastStatus = some DrowsinessStatus.unknown)

set_option maxHeartbeats 2000000 in
/-- One tracker step preserves the streak invariant. -/
theorem streakInv_step (st : TrackerState) (status : DrowsinessStatus)
    (hinv : streakInv st.counters) :
    streakInv (updateConsecutiveAlerts st status).1.counters := by
  obtain ⟨⟨d, di, sv, u, ls⟩, b1, b2⟩ := st
  obtain ⟨h1, h2, h3, h4, h5⟩ := hinv
  cases status <;> rcases ls with _ | s <;> try cases s
  all_goals cases b1 <;> cases b2
  all_goals
    simp_all [updateConsecutiveAlerts, playAlertSound, stopDrowsyAlert,
      stopUnknownTimeout, streakInv]
  all_goals split_ifs <;> simp_all

/-- C10: in every state reachable from the initial all-zero tracker state by
any sequence of detection results, at most one category counter is nonzero
and a nonzero counter's category equals lastStatus. -/
theorem streak_counters_invariant (results : List DrowsinessStatus) :
    streakInv (runTracker initialTrackerState results).1.counters := by
  suffices h : ∀ st, streakInv st.counters →
      streakInv (runTracker st results).1.counters by
    refine h initialTrackerState ?_
    simp [initialTrackerState, initialConsecutiveAlerts, streakInv]
  induction results with
  | nil => intro st hst; simpa [runTracker] using hst
  | cons s rest ih =>
      intro st hst
      simpa [runTracker] using ih _ (streakInv_step st s hst)

/-- C5: startContinuousCapture while already capturing returns successfully
without any state change, so any number of successive start calls in the
Capturing state leaves the service identical and keeps exactly one active
capture timer. -/
theorem start_while_capturing_noop (c : CameraService) (permOk : Bool) (n : Nat)
    (hcap : c.cameraStatus.isCapturing = true) (htimer : c.activeTimers = 1) :
    (startContinuousCapture c permOk).1 = c ∧
    (startContinuousCapture c permOk).2.2 = Except.ok () ∧
    startN permOk n c = c ∧
    (startN permOk n c).activeTimers = 1 := by
  have h1 : startContinuousCapture c permOk = (c, [], Except.ok ()) := by
    simp [startContinuousCapture, hcap]
  have h2 : ∀ m, startN permOk m c = c := by
    intro m
    induction m with
    | zero => rfl
    | succ k ih => simp [startN, h1, ih]
  exact ⟨by simp [h1], by simp [h1], h2 n, by simp [h2 n, htimer]⟩

/-- Witness for start_while_capturing_noop: two redundant start calls on a
concrete capturing service with one live timer. -/
theorem start_while_capturing_noop_witness :
    (startContinuousCapture
      { cameraStatus :=
          { isInitialized := true, isCapturing := true, hasPermission := true,
            lastCaptureTime := none, captureCount := 3, errorMessage := none,
            platform := "web", permissionStatus := PermissionStatus.granted },
        captureInterval := some 4, activeTimers := 1, nextTimerId := 5,
        currentSettings := { quality := 80, width := 640, height := 480 } } true).1 =
      { cameraStatus :=
          { isInitialized := true, isCapturing := true, hasPermission := true,
            lastCaptureTime := none, captureCount := 3, errorMessage := none,
            platform := "web", permissionStatus := PermissionStatus.granted },
        captureInterval := some 4, activeTimers := 1, nextTimerId := 5,
        currentSettings := { quality := 80, width := 640, height := 480 } } ∧
    (startContinuousCapture
      { cameraStatus :=
          { isInitialized := true, isCapturing := true, hasPermission := true,
            lastCaptureTime := none, captureCount := 3, errorMessage := none,
            platform := "web", permissionStatus := PermissionStatus.granted },
        captureInterval := some 4, activeTimers := 1, nextTimerId := 5,
        currentSettings := { quality := 80, width := 640, height := 480 } } true).2.2 =
      Except.ok () ∧
    startN true 2
      { cameraStatus :=
          { isInitialized := true, isCapturing := true, hasPermission := true,
            lastCaptureTime := none, captureCount := 3, errorMessage := none,
            platform := "web", permissionStatus := PermissionStatus.granted },
        captureInterval := some 4, activeTimers := 1, nextTimerId := 5,
        currentSettings := { quality := 80, width := 640, height := 480 } } =
      { cameraStatus :=
          { isInitialized := true, isCapturing := true, hasPermission := true,
            lastCaptureTime := none, captureCount := 3, errorMessage := none,
            platform := "web", permissionStatus := PermissionStatus.granted },
        captureInterval := some 4, activeTimers := 1, nextTimerId := 5,
        currentSettings := { quality := 80, width := 640, height := 480 } } ∧
    (startN true 2
      { cameraStatus :=
          { isInitialized := true, isCapturing := true, hasPermission := true,
            lastCaptureTime := none, captureCount := 3, errorMessage := none,
            platform := "web", permissionStatus := PermissionStatus.granted },
        captureInterval := some 4, activeTimers := 1, nextTimerId := 5,
        currentSettings := { quality := 80, width := 640, height := 480 } }).activeTimers =
      1 :=
  start_while_capturing_noop _ true 2 (by decide) (by decide)

/-- C6: stopContinuousCapture on an idle service (not capturing, no timer)
raises no exception (it is a total function) and leaves the whole service
state unchanged, with still no timer present. -/
theorem stop_when_idle_noop (c : CameraService)
    (hcap : c.cameraStatus.isCapturing = false) (htimer : c.captureInterval = none) :
    (stopContinuousCapture c).1 = c ∧
    (stopContinuousCapture c).1.captureInterval = none ∧
    (stopContinuousCapture c).1.activeTimers = c.activeTimers := by
  obtain ⟨⟨i1, i2, i3, i4, i5, i6, i7, i8⟩, ci, act, nt, cs⟩ := c
  simp_all [stopContinuousCapture, updateStatusM, clearIntervalM]

/-- Witness for stop_when_idle_noop on a concrete never-started service. -/
theorem stop_when_idle_noop_witness :
    (stopContinuousCapture
      { cameraStatus :=
          { isInitialized := true, isCapturing := false, hasPermission := false,
            lastCaptureTime := none, captureCount := 0, errorMessage := none,
            platform := "web", permissionStatus := PermissionStatus.unknown },
        captureInterval := none, activeTimers := 0, nextTimerId := 0,
        currentSettings := { quality := 80, width := 640, height := 480 } }).1 =
      { cameraStatus :=
          { isInitialized := true, isCapturing := false, hasPermission := false,
            lastCaptureTime := none, captureCount := 0, errorMessage := none,
            platform := "web", permissionStatus := PermissionStatus.unknown },
        captureInterval := none, activeTimers := 0, nextTimerId := 0,
        currentSettings := { quality := 80, width := 640, height := 480 } } ∧
    (stopContinuousCapture
      { cameraStatus :=
          { isInitialized := true, isCapturing := false, hasPermission := false,
            lastCaptureTime := none, captureCount := 0, errorMessage := none,
            platform := "web", permissionStatus := PermissionStatus.unknown },
        captureInterval := none, activeTimers := 0, nextTimerId := 0,
        currentSettings := { quality := 80, width := 640, height := 480 } }).1.captureInterval =
      none ∧
    (stopContinuousCapture
      { cameraStatus :=
          { isInitialized := true, isCapturing := false, hasPermission := false,
            lastCaptureTime := none, captureCount := 0, errorMessage := none,
            platform := "web", permissionStatus := PermissionStatus.unknown },
        captureInterval := none, activeTimers := 0, nextTimerId := 0,
        currentSettings := { quality := 80, width := 640, height := 480 } }).1.activeTimers =
      0 :=
  stop_when_idle_noop _ (by decide) (by decide)

/-- Sample capturing camera service used for the tick scenario. -/
def sampleCamera : CameraService :=
  { cameraStatus :=
      { isInitialized := true, isCapturing := true, hasPermission := true,
        lastCaptureTime := none, captureCount := 0, errorMessage := none,
        platform := "web", permissionStatus := PermissionStatus.granted },
    captureInterval := some 0, activeTimers := 1, nextTimerId := 1,
    currentSettings := { quality := 80, width := 640, height := 480 } }

/-- Sample random-draw environment for the synthetic generator. -/
def sampleMockEnv : MockEnv :=
  { statusDraw := 0, confDraw := 0, inferDraw := 0, bboxXDraw := 0, bboxYDraw := 0,
    bboxWDraw := 0, bboxHDraw := 0, nowMs := 7, nowIso := "t0" }

/-- Sample tick environment whose photo acquisition fails. -/
def sampleFailingEnv : CaptureEnv :=
  { permOk := true, captureOk := false, photoData := some "abcd", now := 5,
    frameId := "frame_1", sessionIdStr := "cam_session_1",
    transport := Except.error "timeout", mock := sampleMockEnv }

/-- C9 counterexample: on a tick whose frame capture fails, the error is
reported through the analysisError event emitted by the catch block inside
captureAndAnalyze, not through a captureError event; the timer is untouched
either way. -/
theorem tick_error_event_counterexample :
    CamEvent.analysisError ∈ (continuousCaptureTick sampleCamera sampleFailingEnv).2 ∧
    CamEvent.captureError ∉ (continuousCaptureTick sampleCamera sampleFailingEnv).2 ∧
    (continuousCaptureTick sampleCamera sampleFailingEnv).1.captureInterval =
      sampleCamera.captureInterval := by
  decide

/-- C9 amended: an error raised inside the capture-and-analyze sequence of a
scheduled tick is caught and reported via an error event (analysisError, the
event of the catch block wrapping the sequence), and the tick never touches
the repeating timer, the live timer count or the capturing flag, so the loop
continues. -/
theorem tick_error_keeps_loop (c : CameraService) (env : CaptureEnv)
    (h : env.captureOk = false) :
    CamEvent.analysisError ∈ (continuousCaptureTick c env).2 ∧
    (continuousCaptureTick c env).1.captureInterval = c.captureInterval ∧
    (continuousCaptureTick c env).1.activeTimers = c.activeTimers ∧
    (continuousCaptureTick c env).1.cameraStatus.isCapturing =
      c.cameraStatus.isCapturing := by
  obtain ⟨⟨i1, i2, i3, i4, i5, i6, i7, i8⟩, ci, act, nt, cs⟩ := c
  obtain ⟨permOk, captureOk, photoData, now, frameId, sessionIdStr, transport, mock⟩ := env
  cases i3 <;> cases permOk <;>
    simp_all [continuousCaptureTick, captureAndAnalyze, captureDetectionFrame,
      takePhoto, requestCameraPermissions, updateStatusM]

/-- Witness for tick_error_keeps_loop at the sample failing tick. -/
theorem tick_error_keeps_loop_witness :
    sampleFailingEnv.captureOk = false ∧
    (CamEvent.analysisError ∈ (continuousCaptureTick sampleCamera sampleFailingEnv).2 ∧
      (continuousCaptureTick sampleCamera sampleFailingEnv).1.captureInterval =
        sampleCamera.captureInterval ∧
      (continuousCaptureTick sampleCamera sampleFailingEnv).1.activeTimers =
        sampleCamera.activeTimers ∧
      (continuousCaptureTick sampleCamera sampleFailingEnv).1.cameraStatus.isCapturing =
        sampleCamera.cameraStatus.isCapturing) :=
  ⟨rfl, tick_error_keeps_loop sampleCamera sampleFailingEnv rfl⟩

/-- C7: detectDrowsiness never propagates a transport error: every call
returns ok, and a failing transport yields exactly the synthetic fallback
result. -/
theorem detect_never_propagates (request : DetectionRequest) (env : MockEnv)
    (transport : Except String DetectionResult) :
    (∃ r, detectDrowsiness request transport env = Except.ok r) ∧
    (∀ e, detectDrowsiness request (Except.error e) env =
      Except.ok (getMockDetectionResult request env)) := by
  constructor
  · cases transport with
    | ok r => exact ⟨r, rfl⟩
    | error e => exact ⟨getMockDetectionResult request env, rfl⟩
  · intro e
    rfl

/-- A two-decimal lower bound survives round2. -/
theorem round2_lower (a q : ℚ) (k : Int) (hk : a = (k : ℚ) / 100) (h : a ≤ q) :
    a ≤ round2 q := by
  subst hk
  unfold round2
  have h1 : (k : ℚ) ≤ q * 100 + 1 / 2 := by linarith
  have h2 : (k : ℚ) ≤ ((Int.floor (q * 100 + 1 / 2) : Int) : ℚ) := by
    exact_mod_cast Int.le_floor.mpr h1
  linarith

/-- A strict two-decimal upper bound becomes a weak bound after round2. -/
theorem round2_upper (b q : ℚ) (m : Int) (hm : b = (m : ℚ) / 100) (h : q < b) :
    round2 q ≤ b := by
  subst hm
  unfold round2
  have h1 : q * 100 + 1 / 2 < ((m + 1 : Int) : ℚ) := by push_cast; linarith
  have h2 : Int.floor (q * 100 + 1 / 2) < m + 1 := Int.floor_lt.mpr h1
  have h3 : ((Int.floor (q * 100 + 1 / 2) : Int) : ℚ) ≤ (m : ℚ) := by
    exact_mod_cast Int.lt_add_one_iff.mp h2
  linarith

/-- Round2 of a value drawn from a two-decimal interval base to base + span
by a draw in the unit half-open interval stays in the closed interval. -/
theorem round2_interval (base span q : ℚ) (hq0 : 0 ≤ q) (hq1 : q < 1)
    (k m : Int) (hbase : base = (k : ℚ) / 100) (htop : base + span = (m : ℚ) / 100)
    (hspan : 0 < span) :
    base ≤ round2 (base + q * span) ∧ round2 (base + q * span) ≤ base + span := by
  constructor
  · apply round2_lower _ _ k hbase
    nlinarith
  · apply round2_upper _ _ m htop
    nlinarith

/-- The two head fields of the synthetic result, exposed structurally. -/
theorem getMock_fields (request : DetectionRequest) (env : MockEnv) :
    (getMockDetectionResult request env).isDrowsy =
      mockStatuses.getD (Int.floor (env.statusDraw * 4)).toNat DrowsinessStatus.safe ∧
    (getMockDetectionResult request env).confidence =
      round2 (mockConfidenceRaw
        (mockStatuses.getD (Int.floor (env.statusDraw * 4)).toNat DrowsinessStatus.safe)
        env.confDraw) :=
  ⟨rfl, rfl⟩

/-- C8: every synthetic fallback result carries a confidence inside the
documented per-category range, after the rounding to two decimals the
generator applies, and hence always inside the unit interval:
safe in 0.7 to 1, drowsy in 0.6 to 0.95, distracted in 0.5 to 0.9,
safety-violation in 0.8 to 1. -/
theorem mock_confidence_in_range (request : DetectionRequest) (env : MockEnv)
    (h0 : 0 ≤ env.statusDraw) (h1 : env.statusDraw < 1)
    (h2 : 0 ≤ env.confDraw) (h3 : env.confDraw < 1) :
    ((getMockDetectionResult request env).isDrowsy = DrowsinessStatus.safe →
      7 / 10 ≤ (getMockDetectionResult request env).confidence ∧
      (getMockDetectionResult request env).confidence ≤ 1) ∧
    ((getMockDetectionResult request env).isDrowsy = DrowsinessStatus.drowsy →
      6 / 10 ≤ (getMockDetectionResult request env).confidence ∧
      (getMockDetectionResult request env).confidence ≤ 95 / 100) ∧
    ((getMockDetectionResult request env).isDrowsy = DrowsinessStatus.distracted →
      1 / 2 ≤ (getMockDetectionResult request env).confidence ∧
      (getMockDetectionResult request env).confidence ≤ 9 / 10) ∧
    ((getMockDetectionResult request env).isDrowsy = DrowsinessStatus.safetyViolation →
      4 / 5 ≤ (getMockDetectionResult request env).confidence ∧
      (getMockDetectionResult request env).confidence ≤ 1) ∧
    (0 ≤ (getMockDetectionResult request env).confidence ∧
      (getMockDetectionResult request env).confidence ≤ 1) := by
  obtain ⟨hA, hB⟩ := getMock_fields request env
  have hfl0 : (0 : Int) ≤ Int.floor (env.statusDraw * 4) := by
    apply Int.le_floor.mpr
    push_cast
    nlinarith
  have hfl3 : Int.floor (env.statusDraw * 4) < 4 := by
    apply Int.floor_lt.mpr
    push_cast
    nlinarith
  have hn : (Int.floor (env.statusDraw * 4)).toNat = 0 ∨
      (Int.floor (env.statusDraw * 4)).toNat = 1 ∨
      (Int.floor (env.statusDraw * 4)).toNat = 2 ∨
      (Int.floor (env.statusDraw * 4)).toNat = 3 := by
    omega
  rcases hn with hn | hn | hn | hn <;> rw [hn] at hA hB <;>
    simp only [mockStatuses, List.getD_cons_zero, List.getD_cons_succ,
      mockConfidenceRaw] at hA hB
  · have hr := round2_interval (7 / 10) (3 / 10) env.confDraw h2 h3 70 100
      (by norm_num) (by norm_num) (by norm_num)
    rw [hA, hB]
    exact ⟨fun _ => ⟨hr.1, by linarith [hr.2]⟩, fun hc => absurd hc (by decide),
      fun hc => absurd hc (by decide), fun hc => absurd hc (by decide),
      by linarith [hr.1], by linarith [hr.2]⟩
  · have hr := round2_interval (6 / 10) (35 / 100) env.confDraw h2 h3 60 95
      (by norm_num) (by norm_num) (by norm_num)
    rw [hA, hB]
    exact ⟨fun hc => absurd hc (by decide), fun _ => ⟨hr.1, by linarith [hr.2]⟩,
      fun hc => absurd hc (by decide), fun hc => absurd hc (by decide),
      by linarith [hr.1], by linarith [hr.2]⟩
  · have hr := round2_interval (1 / 2) (4 / 10) env.confDraw h2 h3 50 90
      (by norm_num) (by norm_num) (by norm_num)
    rw [hA, hB]
    exact ⟨fun hc => absurd hc (by decide), fun hc => absurd hc (by decide),
      fun _ => ⟨hr.1, by linarith [hr.2]⟩, fun hc => absurd hc (by decide),
      by linarith [hr.1], by linarith [hr.2]⟩
  · have hr := round2_interval (4 / 5) (2 / 10) env.confDraw h2 h3 80 100
      (by norm_num) (by norm_num) (by norm_num)
    rw [hA, hB]
    exact ⟨fun hc => absurd hc (by decide), fun hc => absurd hc (by decide),
      fun hc => absurd hc (by decide), fun _ => ⟨hr.1, by linarith [hr.2]⟩,
      by linarith [hr.1], by linarith [hr.2]⟩

/-- Witness for mock_confidence_in_range at the all-zero draw environment:
the generated status is safe with confidence exactly 0.7. -/
theorem mock_confidence_in_range_witness :
    ((0 : ℚ) ≤ sampleMockEnv.statusDraw ∧ sampleMockEnv.statusDraw < 1 ∧
      (0 : ℚ) ≤ sampleMockEnv.confDraw ∧ sampleMockEnv.confDraw < 1) ∧
    (0 ≤ (getMockDetectionResult
        { image := "img", model := none, sessionId := none } sampleMockEnv).confidence ∧
      (getMockDetectionResult
        { image := "img", model := none, sessionId := none } sampleMockEnv).confidence ≤ 1) :=
  ⟨⟨by norm_num [sampleMockEnv], by norm_num [sampleMockEnv], by norm_num [sampleMockEnv],
      by norm_num [sampleMockEnv]⟩,
    (mock_confidence_in_range { image := "img", model := none, sessionId := none }
      sampleMockEnv (by norm_num [sampleMockEnv]) (by norm_num [sampleMockEnv])
      (by norm_num [sampleMockEnv]) (by norm_num [sampleMockEnv])).2.2.2.2⟩

end DrowsinessDetection
